import Mathlib

/-
Verification of the LanggraphTaxNodes workflow engine and tax-validation
graph (src/tax_graph.py) against its natural-language specification.

The Python values that flow through the workflow state are modelled by the
inductive `PyVal`; Python dictionaries with string keys are modelled as
insertion-ordered association lists (`List (String × PyVal)`), matching the
insertion-order semantics of Python dicts that the code relies on
(`next(reversed(results))`, overwriting a key keeps its position).
-/

namespace TaxNodes

/-- A Python value as used by the workflow state of `tax_graph.py`.
Floats are modelled as exact rationals; dictionaries are string-keyed
insertion-ordered association lists (every dictionary built by the
repository is string-keyed). -/
inductive PyVal where
  | vNone
  | vBool (b : Bool)
  | vInt (n : Int)
  | vFloat (q : ℚ)
  | vStr (s : String)
  | vList (elems : List PyVal)
  | vDict (entries : List (String × PyVal))
deriving Repr

/-- Python truthiness (`bool(x)`); containers are truthy when nonempty. -/
def truthy : PyVal → Bool
  | .vNone => false
  | .vBool b => b
  | .vInt n => n != 0
  | .vFloat q => q != 0
  | .vStr s => s != ""
  | .vList elems => !elems.isEmpty
  | .vDict entries => !entries.isEmpty

/-- Truthiness of a possibly-missing value (`dict.get` returning `None`). -/
def truthyO : Option PyVal → Bool
  | none => false
  | some v => truthy v

/-- `m.get(k)` on a string-keyed Python dict. -/
def dictGet (m : List (String × PyVal)) (k : String) : Option PyVal :=
  (m.find? (fun e => e.1 == k)).map (fun e => e.2)

/-- `m.get(k, d)` on a string-keyed Python dict. -/
def dictGetD (m : List (String × PyVal)) (k : String) (d : PyVal) : PyVal :=
  (dictGet m k).getD d

/-- `m[k] = v` (also `{**m, k: v}`): overwriting an existing key keeps its
insertion position, a fresh key is appended at the end. -/
def dictSet (m : List (String × PyVal)) (k : String) (v : PyVal) : List (String × PyVal) :=
  if m.any (fun e => e.1 == k) then
    m.map (fun e => if e.1 == k then (k, v) else e)
  else
    m ++ [(k, v)]

/-- The key of the last-inserted entry (`next(reversed(m), None)`). -/
def lastKey (m : List (String × PyVal)) : Option String :=
  m.getLast?.map (fun e => e.1)

/-- Numeric view of a Python value (`bool` is numeric in Python). -/
def PyVal.asNum : PyVal → Option ℚ
  | .vBool b => some (if b then 1 else 0)
  | .vInt n => some (n : ℚ)
  | .vFloat q => some q
  | _ => none

/-- Python `==` restricted to the scalar comparisons the embedded code
performs (country-code values): numeric cross-type equality, strings and
`None`.  Deep container equality is never exercised by any embedded code
path; containers compare unequal here. -/
def pyEq (a b : PyVal) : Bool :=
  match a.asNum, b.asNum with
  | some x, some y => x == y
  | _, _ =>
    match a, b with
    | .vNone, .vNone => true
    | .vStr x, .vStr y => x == y
    | _, _ => false

/-
Exact rational arithmetic on numerator/denominator.  The library's `Rat`
arithmetic is `@[irreducible]`, which blocks kernel evaluation of closed
workflow runs; these operations compute the same values through `mkRat`
and integer arithmetic, and the bridging theorems below prove them equal
to the library operations.
-/

/-- Exact multiplication on `ℚ` (`qMul_eq` bridges to `*`). -/
def qMul (a b : ℚ) : ℚ := mkRat (a.num * b.num) (a.den * b.den)

/-- Exact subtraction on `ℚ` (`qSub_eq` bridges to `-`). -/
def qSub (a b : ℚ) : ℚ := mkRat (a.num * b.den - b.num * a.den) (a.den * b.den)

/-- Exact absolute value on `ℚ` (`qAbs_eq` bridges to `|·|`). -/
def qAbs (a : ℚ) : ℚ := if a.num < 0 then mkRat (-a.num) a.den else a

/-- Exact strict order on `ℚ` (`qLt_iff` bridges to `<`). -/
def qLt (a b : ℚ) : Bool := decide (a.num * (b.den : ℤ) < b.num * (a.den : ℤ))

/-- `float(x)` on the numeric values the code feeds it (Python would
parse a numeric string and raise on other non-numeric arguments; the
amounts handled by the graph are numbers, so neither case is modelled).
`mkRat n 1` is the integer cast (`Rat.mkRat_one`). -/
def pyFloat : PyVal → ℚ
  | .vBool b => if b then 1 else 0
  | .vInt n => mkRat n 1
  | .vFloat q => q
  | _ => 0

/-- `float(v or d)` — Python `or` keeps the first operand when truthy. -/
def pyFloatOr (v : Option PyVal) (d : ℚ) : ℚ :=
  match v with
  | some v => if truthy v then pyFloat v else d
  | none => d

/-- Round-half-to-even to an integer, the tie rule of Python's `round`,
on numerator and denominator (`q.den` is positive, so `Int.fdiv` by it is
the floor and `q - ⌊q⌋` compares to `1/2` by doubling the remainder). -/
def roundHalfEven (q : ℚ) : ℤ :=
  let n := q.num
  let d : ℤ := (q.den : ℤ)
  let f := n.fdiv d
  let r2 := 2 * (n - f * d)
  if r2 < d then f
  else if d < r2 then f + 1
  else if f % 2 = 0 then f else f + 1

/-- `round(x, 2)`.  Python rounds the nearest binary double; the model
rounds the exact rational (no tie or representation gap is hit by any
value appearing in the claims). -/
def pyRound2 (q : ℚ) : ℚ := mkRat (roundHalfEven (qMul q 100)) 100

/-- One entry of the `messages` audit list (`{"role": ..., "content": ...}`). -/
structure Msg where
  role : String
  content : String
deriving Repr

/-- The `TaxState` TypedDict of `tax_graph.py`.  Fields the code reads
with `state.get(...)`-with-default are total with that default standing
for absence; fields read as plain `state.get(...)` are `Option`s. -/
structure TaxState where
  tx : List (String × PyVal)
  ctx : List (String × PyVal)
  results : List (String × PyVal)
  last_check_passed : Option Bool
  pos_region : Option String
  confidence : ℚ
  awaiting_human : Bool
  path : List String
  last_failed_node : Option String
  messages : List Msg
deriving Repr

/-- The dual result contract: an explicit `passed` field of a dict payload
when present, otherwise the truthiness of the payload itself
(`payload.get("passed") if isinstance(payload, dict) and "passed" in payload
else bool(payload)`). -/
def derivePassed (payload : PyVal) : Bool :=
  match payload with
  | .vDict entries =>
    match dictGet entries "passed" with
    | some v => truthy v
    | none => truthy payload
  | _ => truthy payload

/-- Does the payload carry an explicit `passed` field? -/
def hasPassedField : PyVal → Bool
  | .vDict entries => (dictGet entries "passed").isSome
  | _ => false

/-- The result-merge helper `ok(state, node, payload)`: record the payload,
derive and store pass/fail, append the node to the execution path. -/
def ok (state : TaxState) (node : String) (payload : PyVal) : TaxState :=
  { state with
    results := dictSet state.results node payload
    last_check_passed := some (derivePassed payload)
    path := state.path ++ [node] }

/-- The mandatory-field list of `node_legal_and_mandatory_fields`. -/
def requiredFields : List String :=
  ["entity_id", "doc_date", "currency", "supplier_id", "net_amount"]

def node_reporting_entity (state : TaxState) : TaxState :=
  ok state "1_reporting_entity" (.vBool true)

def node_reporting_country (state : TaxState) : TaxState :=
  ok state "2_reporting_country" (.vBool true)

/-- The `missing` list of the field-validation gate: a required field is
"missing" when `not tx.get(k)`, i.e. absent or holding a falsy value. -/
def missingFields (tx : List (String × PyVal)) : List String :=
  requiredFields.filter (fun k => !truthyO (dictGet tx k))

/-- The payload recorded by the field-validation gate:
`{"passed": len(missing)==0, "missing": missing}`. -/
def legalPayload (tx : List (String × PyVal)) : PyVal :=
  .vDict [("passed", .vBool ((missingFields tx).length == 0)),
          ("missing", .vList ((missingFields tx).map .vStr))]

/-- The field-validation gate `node_legal_and_mandatory_fields`. -/
def node_legal_and_mandatory_fields (state : TaxState) : TaxState :=
  ok state "legal_mandatory_fields" (legalPayload state.tx)

def node_taxability_analysis (state : TaxState) : TaxState :=
  ok state "3_taxability_analysis" (.vBool true)

def node_product_service_taxability (state : TaxState) : TaxState :=
  ok state "3a_product_service_taxability" (.vBool true)

def node_gl_taxability (state : TaxState) : TaxState :=
  ok state "3b_gl_taxability" (.vBool true)

def node_supplier_vat_verification (state : TaxState) : TaxState :=
  ok state "4_supplier_vat_verification" (.vBool true)

def node_master_data (state : TaxState) : TaxState :=
  ok state "4a_master_data" (.vBool true)

/-- The EU country-code set of `node_place_of_supply`. -/
def euCountries : List String :=
  ["AT", "BE", "BG", "HR", "CY", "CZ", "DK", "EE", "FI", "FR", "DE", "GR", "HU",
   "IE", "IT", "LV", "LT", "LU", "MT", "NL", "PL", "PT", "RO", "SK", "SI", "ES", "SE"]

/-- `x in eu` for a possibly-missing transaction value; only a string can
equal a member of the string set. -/
def inEU (v : Option PyVal) : Bool :=
  match v with
  | some (.vStr c) => euCountries.contains c
  | _ => false

/-- Python `a == b` on two possibly-missing values (`None` never reaches
this comparison guarded by truthiness, but the model is total). -/
def pyEqO (a b : Option PyVal) : Bool :=
  match a, b with
  | some a, some b => pyEq a b
  | _, _ => false

/-- The region classification of `node_place_of_supply`: DOMESTIC when
ship-to and supplier country are truthy and equal, EU when both are EU
members, NON_EU otherwise. -/
def posRegion (tx : List (String × PyVal)) : String :=
  if truthyO (dictGet tx "ship_to_country") && truthyO (dictGet tx "supplier_country")
      && pyEqO (dictGet tx "ship_to_country") (dictGet tx "supplier_country") then "DOMESTIC"
  else if inEU (dictGet tx "ship_to_country") && inEU (dictGet tx "supplier_country") then "EU"
  else "NON_EU"

def node_place_of_supply (state : TaxState) : TaxState :=
  ok { state with pos_region := some (posRegion state.tx) }
    "5_place_of_supply" (.vDict [("region", .vStr (posRegion state.tx))])

def node_reverse_charge_inout (state : TaxState) : TaxState :=
  ok state "5a_reverse_charge_verification" (.vBool true)

def node_eu_intracommunity (state : TaxState) : TaxState :=
  ok state "5b_eu_intracommunity" (.vBool true)

def node_non_eu_foreign (state : TaxState) : TaxState :=
  ok state "5c_non_eu_foreign" (.vBool true)

def node_vat_recoverability_and_rate_block (state : TaxState) : TaxState :=
  ok state "6_recoverability_rate_block" (.vBool true)

def node_vat_rate_verification (state : TaxState) : TaxState :=
  ok state "6a_vat_rate_verification" (.vBool true)

def node_vat_recoverability (state : TaxState) : TaxState :=
  ok state "6b_vat_recoverability" (.vBool true)

/-- `ctx.get("rate_table", {"DE": 0.19})` — the entries of the rate table
(a non-dict value stored under `rate_table` would raise in Python at the
subsequent `.get`; no graph input produces one). -/
def rateTableOf (ctx : List (String × PyVal)) : List (String × PyVal) :=
  match dictGet ctx "rate_table" with
  | some (.vDict entries) => entries
  | some _ => []
  | none => [("DE", .vFloat (mkRat 19 100))]

/-- `tx.get("country") or tx.get("reporting_country")`. -/
def countryOf (tx : List (String × PyVal)) : Option PyVal :=
  let c := dictGet tx "country"
  if truthyO c then c else dictGet tx "reporting_country"

/-- `rate_table.get(country, 0.0)`: a missing, `None` or non-string country
finds no entry of the string-keyed table and yields the 0.0 default. -/
def rateLookup (rate_table : List (String × PyVal)) (country : Option PyVal) : PyVal :=
  match country with
  | some (.vStr c) => dictGetD rate_table c (.vFloat 0)
  | _ => .vFloat 0

def node_invoice_comparison (state : TaxState) : TaxState :=
  let ctx := state.ctx
  let tx := state.tx
  let rate_table := rateTableOf ctx
  let country := countryOf tx
  let rate := rateLookup rate_table country
  let net := pyFloatOr (dictGet tx "net_amount") 0
  let calc_tax := pyRound2 (qMul net (pyFloat rate))
  let supplier_tax := pyRound2 (pyFloatOr (dictGet tx "supplier_tax") 0)
  let mismatch := qLt (pyFloat (dictGetD ctx "tolerance" (.vFloat (mkRat 2 100))))
                      (qAbs (qSub calc_tax supplier_tax))
  let confidence : ℚ := if !mismatch then mkRat 98 100 else mkRat 6 10
  let state := { state with confidence := confidence }
  ok state "7_invoice_comparison"
    (.vDict [("passed", .vBool (!mismatch)),
             ("calc_tax", .vFloat calc_tax),
             ("supplier_tax", .vFloat supplier_tax),
             ("rate", rate),
             ("confidence", .vFloat confidence)])

/-- `str(date.today())` depends on the wall clock; the model fixes an
arbitrary date string (the sibling `main.py` hardcodes this very literal).
No claim depends on its value. -/
def dateToday : String := "2025-10-13"

/-- A LangGraph `Command(update=..., goto=...)`: an explicit control
directive carrying the overriding state and the step to resume at. -/
structure Command where
  update : TaxState
  goto : String
deriving Repr

/-- The four subject fields the remediation step may fill. -/
def remediationKeys : List String :=
  ["doc_date", "currency", "supplier_id", "net_amount"]

/-- The built-in default table of the remediation step, used when
`ctx.defaults` is absent. -/
def builtinDefaults (tx : List (String × PyVal)) : List (String × PyVal) :=
  [("doc_date", .vStr dateToday),
   ("currency", .vStr "EUR"),
   ("supplier_id", .vStr "SIM-SUP"),
   ("net_amount", .vFloat 1000),
   ("supplier_tax", .vFloat 190),
   ("ship_to_country", if truthyO (dictGet tx "country")
                       then (dictGet tx "country").getD .vNone else .vStr "DE"),
   ("supplier_country", if truthyO (dictGet tx "country")
                        then (dictGet tx "country").getD .vNone else .vStr "DE")]

/-- `state.get("ctx", {}).get("defaults", {...builtins...})` (a non-dict
value stored under `defaults` would raise in Python at `.get`; no graph
input produces one). -/
def hitlDefaults (state : TaxState) : List (String × PyVal) :=
  match dictGet state.ctx "defaults" with
  | some (.vDict entries) => entries
  | some _ => []
  | none => builtinDefaults state.tx

/-- `state.get("last_failed_node") or "legal_mandatory_fields"`: Python
`or` falls through to the default on a missing or falsy (empty-string)
value. -/
def hitlResumeTarget (state : TaxState) : String :=
  match state.last_failed_node with
  | some f => if f == "" then "legal_mandatory_fields" else f
  | none => "legal_mandatory_fields"

/-- One iteration of the remediation loop
`if not tx.get(k): tx[k] = defaults.get(k); changes[k] = tx[k]`,
threading the pair (tx, changes). -/
def fillMissing (defaults : List (String × PyVal))
    (acc : List (String × PyVal) × List (String × PyVal)) (k : String) :
    List (String × PyVal) × List (String × PyVal) :=
  if truthyO (dictGet acc.1 k) then acc
  else (dictSet acc.1 k (dictGetD defaults k .vNone),
        dictSet acc.2 k (dictGetD defaults k .vNone))

/-- The remediated transaction and the recorded changes: the loop body
runs only when the effective resume target is the field-validation gate. -/
def hitlFill (state : TaxState) : List (String × PyVal) × List (String × PyVal) :=
  if hitlResumeTarget state == "legal_mandatory_fields" then
    remediationKeys.foldl (fillMissing (hitlDefaults state)) (state.tx, [])
  else (state.tx, [])

/-- Rendering of a scalar value inside the audit message; Python's exact
`repr` formatting (quotes, float suffixes) is abstracted — no claim
inspects the message text. -/
def pyReprScalar : PyVal → String
  | .vNone => "None"
  | .vBool b => if b then "True" else "False"
  | .vInt n => toString n
  | .vFloat q => toString q
  | .vStr s => s
  | .vList _ => "[...]"
  | .vDict _ => "dict"

/-- Rendering of the `changes` dict inside the f-string
`f"HITL fixes for {last_fail}: {changes or 'no-op'}"`. -/
def reprChanges (changes : List (String × PyVal)) : String :=
  if changes.isEmpty then "no-op"
  else String.intercalate ", " (changes.map (fun e => e.1 ++ ": " ++ pyReprScalar e.2))

/-- The HITL remediation step `node_failed_controls_and_validations`:
fills missing subject fields from the defaults when the last failure was
the field-validation gate, records its own outcome, appends an audit
message, and returns `Command(update=state, goto=last_fail)`.
(`awaiting_human` is set to `True` and back to `False` inside the body;
the net effect recorded here is `False`.) -/
def node_failed_controls_and_validations (state : TaxState) : Command :=
  let last_fail := hitlResumeTarget state
  let fc := hitlFill state
  let results :=
    dictSet state.results "8_failed_controls_hitl"
      (.vDict [("approved", .vBool true),
               ("comment", .vStr ("Remediated and resuming from " ++ last_fail ++ ".")),
               ("changes", .vDict fc.2)])
  let messages :=
    state.messages ++ [⟨"assistant", "HITL fixes for " ++ last_fail ++ ": " ++ reprChanges fc.2⟩]
  { update := { state with
      tx := fc.1
      results := results
      messages := messages
      awaiting_human := false }
    goto := last_fail }

/-- The key the pass/fail router inspects:
`state["path"][-1] if state["path"] else next(reversed(results), None)`. -/
def routerKey (state : TaxState) : Option String :=
  match state.path.getLast? with
  | some k => some k
  | none => lastKey state.results

/-- The outcome the router inspects:
`v = state.get("results", {}).get(last_key)` (a `None` key finds
nothing). -/
def routerVal (state : TaxState) : Option PyVal :=
  match routerKey state with
  | some k => dictGet state.results k
  | none => none

/-- The pass/fail derivation of the router: the inspected outcome fed
through the dual contract; a missing key or entry is falsy
(`bool(None)`). -/
def routerPassed (state : TaxState) : Bool :=
  match routerVal state with
  | some v => derivePassed v
  | none => false

/-- Python truthiness of the optional router key (`None` and `""` are
falsy). -/
def optTruthy : Option String → Bool
  | some k => k != ""
  | none => false

/-- The reusable `pass_fail` router.  The source mutates the state it is
given (`state["last_failed_node"] = last_key`) and returns the label; the
model returns the updated state alongside the label.
(`state.setdefault("path", [])` is a no-op here: `path` is total.) -/
def pass_fail (state : TaxState) : TaxState × String :=
  let last_key := routerKey state
  let passed := routerPassed state
  let state :=
    if !passed && optTruthy last_key then { state with last_failed_node := last_key }
    else state
  (state, if passed then "pass" else "fail")

/-- The place-of-supply router `route_pos`:
`state.get("pos_region", "DOMESTIC")`. -/
def route_pos (state : TaxState) : String :=
  state.pos_region.getD "DOMESTIC"

/-- A step either returns the updated state (ordinary node) or an explicit
control directive (the HITL node). -/
inductive StepResult where
  | state (s : TaxState)
  | command (c : Command)

/-- A routing target: a named step or the `END` sentinel. -/
inductive Target where
  | node (id : String)
  | done
deriving Repr, DecidableEq

/-- An edge-table entry: a static successor, or a router (which may update
the state, as `pass_fail` does) together with its outcome map. -/
inductive Edge where
  | static (t : Target)
  | cond (router : TaxState → TaxState × String) (outcomes : List (String × Target))

/-- Generic association-list lookup used by the registry and edge table. -/
def alookup {α : Type} (m : List (String × α)) (k : String) : Option α :=
  (m.find? (fun e => e.1 == k)).map (fun e => e.2)

/-- A workflow graph: step registry, edge table, and the entry step
(`START`'s static target). -/
structure Graph where
  registry : List (String × (TaxState → StepResult))
  edges : List (String × Edge)
  entry : String

/-- The step registry of `tax_graph.py` (the `graph.add_node` calls). -/
def taxRegistry : List (String × (TaxState → StepResult)) :=
  [("1_reporting_entity", fun s => .state (node_reporting_entity s)),
   ("2_reporting_country", fun s => .state (node_reporting_country s)),
   ("legal_mandatory_fields", fun s => .state (node_legal_and_mandatory_fields s)),
   ("3_taxability_analysis", fun s => .state (node_taxability_analysis s)),
   ("3a_product_service_taxability", fun s => .state (node_product_service_taxability s)),
   ("3b_gl_taxability", fun s => .state (node_gl_taxability s)),
   ("4_supplier_vat_verification", fun s => .state (node_supplier_vat_verification s)),
   ("4a_master_data", fun s => .state (node_master_data s)),
   ("5_place_of_supply", fun s => .state (node_place_of_supply s)),
   ("5a_reverse_charge_verification", fun s => .state (node_reverse_charge_inout s)),
   ("5b_eu_intracommunity", fun s => .state (node_eu_intracommunity s)),
   ("5c_non_eu_foreign", fun s => .state (node_non_eu_foreign s)),
   ("6_recoverability_rate_block", fun s => .state (node_vat_recoverability_and_rate_block s)),
   ("6a_vat_rate_verification", fun s => .state (node_vat_rate_verification s)),
   ("6b_vat_recoverability", fun s => .state (node_vat_recoverability s)),
   ("7_invoice_comparison", fun s => .state (node_invoice_comparison s)),
   ("8_failed_controls_hitl", fun s => .command (node_failed_controls_and_validations s))]

/-- The outcome map of the conditional edge attached to
`5_place_of_supply` (the `add_conditional_edges` call with `route_pos`). -/
def posOutcomes : List (String × Target) :=
  [("DOMESTIC", .node "5a_reverse_charge_verification"),
   ("EU", .node "5b_eu_intracommunity"),
   ("NON_EU", .node "5c_non_eu_foreign")]

/-- The edge table of `tax_graph.py` (the `add_edge` and
`add_conditional_edges` calls).  The HITL node has no outgoing edge: it
always returns a directive. -/
def taxEdges : List (String × Edge) :=
  [("1_reporting_entity", .static (.node "2_reporting_country")),
   ("2_reporting_country", .cond pass_fail
      [("pass", .node "legal_mandatory_fields"), ("fail", .node "8_failed_controls_hitl")]),
   ("legal_mandatory_fields", .cond pass_fail
      [("pass", .node "3_taxability_analysis"), ("fail", .node "8_failed_controls_hitl")]),
   ("3_taxability_analysis", .static (.node "3a_product_service_taxability")),
   ("3a_product_service_taxability", .static (.node "3b_gl_taxability")),
   ("3b_gl_taxability", .static (.node "4_supplier_vat_verification")),
   ("4_supplier_vat_verification", .cond pass_fail
      [("pass", .node "4a_master_data"), ("fail", .node "8_failed_controls_hitl")]),
   ("4a_master_data", .static (.node "5_place_of_supply")),
   ("5_place_of_supply", .cond (fun s => (s, route_pos s)) posOutcomes),
   ("5a_reverse_charge_verification", .static (.node "6_recoverability_rate_block")),
   ("5b_eu_intracommunity", .static (.node "6_recoverability_rate_block")),
   ("5c_non_eu_foreign", .static (.node "6_recoverability_rate_block")),
   ("6_recoverability_rate_block", .static (.node "6a_vat_rate_verification")),
   ("6a_vat_rate_verification", .static (.node "6b_vat_recoverability")),
   ("6b_vat_recoverability", .static (.node "7_invoice_comparison")),
   ("7_invoice_comparison", .cond pass_fail
      [("pass", .done), ("fail", .node "8_failed_controls_hitl")])]

/-- The compiled graph `app` of `tax_graph.py`. -/
def taxGraph : Graph :=
  { registry := taxRegistry, edges := taxEdges, entry := "1_reporting_entity" }

/-- The error taxonomy of the specification (§7): `CycleExceededError`
when the iteration guard trips, `RoutingError` on an unmatched router
label, `ConfigurationError` on an unresolvable step reference. -/
inductive RunError where
  | cycleExceeded
  | routingError (stepId : String)
  | configurationError (stepId : String)
deriving Repr, DecidableEq

/-- Modelled from the spec: the Execution Engine (§4.5).  The runtime that
drives the compiled graph is the external LangGraph library, which is not
part of this repository's sources; the loop here follows the
specification's step loop — invoke the current step, honour an explicit
directive, otherwise resolve the next step through the edge table — with
the mandated `MaxSteps` fuel bound failing the run with
`CycleExceededError` instead of looping forever. -/
def engineLoop (g : Graph) : Nat → Target → TaxState → Except RunError TaxState
  | 0, _, _ => .error .cycleExceeded
  | _ + 1, .done, s => .ok s
  | fuel + 1, .node id, s =>
    match alookup g.registry id with
    | none => .error (.configurationError id)
    | some fn =>
      match fn s with
      | .command c => engineLoop g fuel (.node c.goto) c.update
      | .state s1 =>
        match alookup g.edges id with
        | none => .error (.configurationError id)
        | some (.static t) => engineLoop g fuel t s1
        | some (.cond router outcomes) =>
          let rs := router s1
          match alookup outcomes rs.2 with
          | none => .error (.routingError id)
          | some t => engineLoop g fuel t rs.1

/-- Modelled from the spec: the default `MaxSteps` recommendation of §4.5,
ten times the number of registered steps. -/
def maxSteps (g : Graph) : Nat := 10 * g.registry.length

/-- Modelled from the spec: a full engine run from the entry step under
the default `MaxSteps` bound (`app.invoke(init)`). -/
def runEngine (g : Graph) (init : TaxState) : Except RunError TaxState :=
  engineLoop g (maxSteps g) (.node g.entry) init

/-- The initial state built by `run_tax_validation`. -/
def initState (tx ctx : List (String × PyVal)) : TaxState :=
  { tx := tx, ctx := ctx, results := [], last_check_passed := none,
    pos_region := none, confidence := 0, awaiting_human := false,
    path := [], last_failed_node := none, messages := [] }

/-- The report dict returned by `run_tax_validation`. -/
structure Report where
  passed : Bool
  confidence : ℚ
  missing_fields : PyVal
  calc_tax : Option PyVal
  supplier_tax : Option PyVal
  rate : Option PyVal
  pos_region : Option PyVal
  path : List String
  agent_messages : List Msg
  results : List (String × PyVal)
deriving Repr

/-- `final.get("results",{}).get(key,{})` viewed as a dict (the stored
payloads are dicts wherever this accessor is applied). -/
def resultEntries (final : TaxState) (key : String) : List (String × PyVal) :=
  match dictGet final.results key with
  | some (.vDict entries) => entries
  | _ => []

/-- Assembly of the report from the final state. -/
def mkReport (final : TaxState) : Report :=
  let inv := resultEntries final "7_invoice_comparison"
  let legal := resultEntries final "legal_mandatory_fields"
  let pos := resultEntries final "5_place_of_supply"
  { passed := truthyO (dictGet inv "passed")
    confidence := final.confidence
    missing_fields := dictGetD legal "missing" (.vList [])
    calc_tax := dictGet inv "calc_tax"
    supplier_tax := dictGet inv "supplier_tax"
    rate := dictGet inv "rate"
    pos_region := dictGet pos "region"
    path := final.path
    agent_messages := final.messages
    results := final.results }

/-- `run_tax_validation(tx, ctx)`: build the initial state, run the graph,
assemble the report.  The source's `ctx=None` default is modelled by the
caller passing the empty context.  A run aborted by the engine surfaces
the error. -/
def run_tax_validation (tx ctx : List (String × PyVal)) : Except RunError Report :=
  (runEngine taxGraph (initState tx ctx)).map mkReport

/-
Concrete states and inputs referenced by the theorems below.
-/

/-- Scenario B of the specification, as exercised by the repository's own
demo (`main.py`): the subject omits the four remediable mandatory fields,
carries `entity_id`, `country`/regions `DE` and `supplier_tax=190`, and
the context supplies the full default table, `rate_table={"DE": 0.19}` and
`tolerance=0.01`. -/
def scenarioB_tx : List (String × PyVal) :=
  [("id", .vStr "TX999"), ("entity_id", .vStr "DE01"), ("country", .vStr "DE"),
   ("ship_to_country", .vStr "DE"), ("supplier_country", .vStr "DE"),
   ("supplier_tax", .vFloat 190)]

/-- The context of Scenario B (see `scenarioB_tx`). -/
def scenarioB_ctx : List (String × PyVal) :=
  [("defaults", .vDict [("doc_date", .vStr "2025-10-13"), ("currency", .vStr "EUR"),
     ("supplier_id", .vStr "SIM-SUP"), ("net_amount", .vFloat 1000),
     ("supplier_tax", .vFloat 190)]),
   ("rate_table", .vDict [("DE", .vFloat (mkRat 19 100))]),
   ("tolerance", .vFloat (mkRat 1 100))]

/-- The expected execution path of Scenario B: the field-validation gate
appears twice (fail, remediation, re-run), the HITL step itself never
appears. -/
def scenarioB_path : List String :=
  ["1_reporting_entity", "2_reporting_country", "legal_mandatory_fields",
   "legal_mandatory_fields", "3_taxability_analysis", "3a_product_service_taxability",
   "3b_gl_taxability", "4_supplier_vat_verification", "4a_master_data",
   "5_place_of_supply", "5a_reverse_charge_verification", "6_recoverability_rate_block",
   "6a_vat_rate_verification", "6b_vat_recoverability", "7_invoice_comparison"]

/-- A subject satisfying claim C2's hypotheses on which the run does not
reach the terminal state: it omits the four remediable fields, carries
`entity_id` and `supplier_tax=190` — but no `country`, so the computed
tax is 0, the final comparison gate fails forever and the cycle guard
trips. -/
def c2ce_tx : List (String × PyVal) :=
  [("entity_id", .vStr "E"), ("supplier_tax", .vFloat 190)]

/-- A two-step witness graph for the cycle guard: a gate that always
records a failing payload, routed on failure to a remediation step that
always resumes the gate. -/
def w1Gate : TaxState → StepResult := fun s => .state (ok s "g" (.vBool false))

/-- The remediation step of the witness graph: always resume the gate. -/
def w1Rem : TaxState → StepResult := fun s => .command ⟨s, "g"⟩

/-- The witness graph wiring `w1Gate` and `w1Rem` into a loop. -/
def w1Graph : Graph :=
  { registry := [("g", w1Gate), ("rem", w1Rem)],
    edges := [("g", .cond pass_fail [("pass", .done), ("fail", .node "rem")])],
    entry := "g" }

/-- A run state after a failing evaluation recorded for step `g`. -/
def c3StateA : TaxState := ok (initState [] []) "g" (.vDict [("passed", .vBool false)])

/-- `c3StateA` after the router marked the failure and the step re-ran
with a passing payload. -/
def c3StateB : TaxState := ok (pass_fail c3StateA).1 "g" (.vDict [("passed", .vBool true)])

/-- A state (failure recorded at the final comparison gate) on which the
remediation step runs. -/
def c4State : TaxState :=
  { initState [] [] with path := ["a", "b"], last_failed_node := some "7_invoice_comparison" }

/-- A state whose `last_failed_node` holds the empty string: set, but
falsy for Python's `or`. -/
def c5State : TaxState := { initState [] [] with last_failed_node := some "" }

/-- A state whose trail ends in the empty-string step id with a failing
recorded outcome. -/
def c6State : TaxState :=
  { initState [] [] with path := [""], results := [("", .vBool false)] }

/-- A failing-gate state for the C3 witness. -/
def c3wFail : TaxState := ok (initState [] []) "g" (.vBool false)

/-- A passing-gate state for the C3 witness. -/
def c3wPass : TaxState := ok (initState [] []) "h" (.vBool true)

/-- A subject for the C5 witness: `currency` present and truthy, the
other remediable fields absent. -/
def c5wState : TaxState := initState [("currency", .vStr "EUR")] []

/-- A subject for the C10 witness: every mandatory field present but
`net_amount` holds the falsy value 0 and `currency` the empty string. -/
def c10State : TaxState :=
  initState
    [("entity_id", .vStr "E"), ("doc_date", .vStr "2025-01-01"),
     ("currency", .vStr ""), ("supplier_id", .vStr "S"), ("net_amount", .vInt 0)] []

/-
Bridging theorems: the executable rational operations agree with the
library operations on `ℚ`.
-/

theorem num_eq_mul_den (a : ℚ) : (a.num : ℚ) = a * a.den := by field_simp

theorem qMul_eq (a b : ℚ) : qMul a b = a * b := by
  unfold qMul
  rw [Rat.mkRat_eq_div]
  push_cast
  rw [div_eq_iff (by positivity : ((a.den : ℚ) * b.den) ≠ 0)]
  rw [num_eq_mul_den, num_eq_mul_den]; ring

theorem qSub_eq (a b : ℚ) : qSub a b = a - b := by
  unfold qSub
  rw [Rat.mkRat_eq_div]
  push_cast
  rw [div_eq_iff (by positivity : ((a.den : ℚ) * b.den) ≠ 0)]
  rw [num_eq_mul_den, num_eq_mul_den]; ring

theorem qAbs_eq (a : ℚ) : qAbs a = |a| := by
  unfold qAbs
  rcases lt_trichotomy a 0 with h | h | h
  · rw [if_pos (by exact_mod_cast Rat.num_neg.mpr h), abs_of_neg h, Rat.mkRat_eq_div]
    push_cast
    rw [neg_div, Rat.num_div_den]
  · subst h; simp
  · rw [if_neg (by simpa using not_lt.mpr (Rat.num_nonneg.mpr h.le)), abs_of_pos h]

theorem qLt_iff (a b : ℚ) : qLt a b = true ↔ a < b := by
  unfold qLt
  simp only [decide_eq_true_eq]
  have h : a < b ↔ (a.num : ℚ) / a.den < (b.num : ℚ) / b.den := by
    rw [Rat.num_div_den, Rat.num_div_den]
  rw [h, div_lt_div_iff₀ (by positivity) (by positivity)]
  exact_mod_cast Iff.rfl

/-
Dictionary lemmas: `dictSet` writes the given key and leaves every other
key unchanged.
-/

theorem find_map_replace (m : List (String × PyVal)) (k : String) (v : PyVal)
    (h : m.any (fun e => e.1 == k) = true) :
    (m.map (fun e => if e.1 == k then (k, v) else e)).find? (fun e => e.1 == k) = some (k, v) := by
  induction m with
  | nil => simp at h
  | cons a t ih =>
    cases hb : (a.1 == k) with
    | true =>
      simp only [List.map_cons]
      rw [if_pos hb]
      exact List.find?_cons_of_pos _ (by simp)
    | false =>
      rw [List.any_cons, hb, Bool.false_or] at h
      simp only [List.map_cons]
      rw [if_neg (by simp [hb])]
      rw [List.find?_cons_of_neg _ (by simp [hb])]
      exact ih h

theorem find_map_replace_ne (t : List (String × PyVal)) (k k' : String) (v : PyVal)
    (hne : (k' == k) = false) :
    (t.map (fun e => if e.1 == k then (k, v) else e)).find? (fun e => e.1 == k') =
      t.find? (fun e => e.1 == k') := by
  have hk' : ¬ k' = k := by simpa using hne
  induction t with
  | nil => rfl
  | cons a t ih =>
    simp only [List.map_cons]
    by_cases hb : a.1 = k
    · rw [if_pos (by simpa using hb)]
      rw [List.find?_cons_of_neg _ (by simp; exact fun h => hk' h.symm),
          List.find?_cons_of_neg _ (by simp [hb]; exact fun h => hk' h.symm)]
      exact ih
    · rw [if_neg (by simpa using hb)]
      by_cases ha' : a.1 = k'
      · rw [List.find?_cons_of_pos _ (by simpa using ha'),
            List.find?_cons_of_pos _ (by simpa using ha')]
      · rw [List.find?_cons_of_neg _ (by simpa using ha'),
            List.find?_cons_of_neg _ (by simpa using ha')]
        exact ih

theorem dictGet_dictSet_self (m : List (String × PyVal)) (k : String) (v : PyVal) :
    dictGet (dictSet m k v) k = some v := by
  unfold dictGet dictSet
  by_cases h : m.any (fun e => e.1 == k) = true
  · rw [if_pos h, find_map_replace m k v h]
    rfl
  · rw [if_neg h, List.find?_append]
    have h0 : m.find? (fun e => e.1 == k) = none := by
      rw [List.find?_eq_none]
      intro x hx
      have h' := List.any_eq_false.mp (Bool.eq_false_iff.mpr h)
      simpa using h' x hx
    rw [h0]
    simp [List.find?]

theorem dictGet_dictSet_ne (m : List (String × PyVal)) (k k' : String) (v : PyVal)
    (hne : (k' == k) = false) :
    dictGet (dictSet m k v) k' = dictGet m k' := by
  unfold dictGet dictSet
  by_cases h : m.any (fun e => e.1 == k) = true
  · rw [if_pos h, find_map_replace_ne m k k' v hne]
  · rw [if_neg h, List.find?_append]
    have hkk' : ((k, v).1 == k') = false := by
      have h' : ¬ k' = k := by simpa using hne
      simp
      exact fun e => h' e.symm
    have h1 : List.find? (fun e => e.1 == k') [(k, v)] = none := by
      rw [List.find?_cons_of_neg _ (by simp [hkk']), List.find?_nil]
    rw [h1]
    simp

/-
Router lemmas: what `pass_fail` sees right after a step recorded its
outcome through the merge helper.
-/

theorem routerKey_ok (s : TaxState) (n : String) (p : PyVal) :
    routerKey (ok s n p) = some n := by
  unfold routerKey ok
  simp

theorem routerVal_ok (s : TaxState) (n : String) (p : PyVal) :
    routerVal (ok s n p) = some p := by
  unfold routerVal
  rw [routerKey_ok]
  show dictGet (ok s n p).results n = some p
  unfold ok
  exact dictGet_dictSet_self _ _ _

theorem routerPassed_ok (s : TaxState) (n : String) (p : PyVal) :
    routerPassed (ok s n p) = derivePassed p := by
  unfold routerPassed
  rw [routerVal_ok]

theorem pass_fail_ok_label (s : TaxState) (n : String) (p : PyVal) :
    (pass_fail (ok s n p)).2 = if derivePassed p then "pass" else "fail" := by
  unfold pass_fail
  simp only [routerPassed_ok]

/-- The two-step cycle: from the always-failing gate or from the
remediation step that resumes it, every fuel bound is exhausted. -/
theorem cycle_guard_aux (g : Graph) (gate rem : String)
    (fg fr : TaxState → StepResult)
    (hg : alookup g.registry gate = some fg)
    (hr : alookup g.registry rem = some fr)
    (m : List (String × Target))
    (hedge : alookup g.edges gate = some (.cond pass_fail m))
    (hfail : alookup m "fail" = some (.node rem))
    (hgate : ∀ s, ∃ payload, derivePassed payload = false ∧ fg s = .state (ok s gate payload))
    (hrem : ∀ s, ∃ u, fr s = .command ⟨u, gate⟩) :
    ∀ fuel, (∀ s, engineLoop g fuel (.node gate) s = .error .cycleExceeded)
          ∧ (∀ s, engineLoop g fuel (.node rem) s = .error .cycleExceeded) := by
  intro fuel
  induction fuel with
  | zero => exact ⟨fun _ => rfl, fun _ => rfl⟩
  | succ n ih =>
    constructor
    · intro s
      obtain ⟨payload, hpf, hstep⟩ := hgate s
      have hlabel : (pass_fail (ok s gate payload)).2 = "fail" := by
        rw [pass_fail_ok_label, hpf]; simp
      show engineLoop g (n + 1) (.node gate) s = .error .cycleExceeded
      simp only [engineLoop, hg, hstep, hedge, hlabel, hfail]
      exact ih.2 _
    · intro s
      obtain ⟨u, hstep⟩ := hrem s
      show engineLoop g (n + 1) (.node rem) s = .error .cycleExceeded
      simp only [engineLoop, hr, hstep]
      exact ih.1 u


/-- C1: for every graph whose gate step always records a failing outcome
(derived pass/fail false), whose fail edge under the `pass_fail` router
routes to a remediation step, and whose remediation step always issues a
directive resuming that same gate, the engine run starting at the gate
exhausts every fuel bound — in particular the default `MaxSteps` — and
terminates with `CycleExceededError`; it never diverges and never
completes. -/
theorem engine_cycle_guard (g : Graph) (gate rem : String)
    (fg fr : TaxState → StepResult)
    (hg : alookup g.registry gate = some fg)
    (hr : alookup g.registry rem = some fr)
    (m : List (String × Target))
    (hedge : alookup g.edges gate = some (.cond pass_fail m))
    (hfail : alookup m "fail" = some (.node rem))
    (hgate : ∀ s, ∃ payload, derivePassed payload = false ∧ fg s = .state (ok s gate payload))
    (hrem : ∀ s, ∃ u, fr s = .command ⟨u, gate⟩)
    (fuel : Nat) (s : TaxState) :
    engineLoop g fuel (.node gate) s = .error .cycleExceeded :=
  ((cycle_guard_aux g gate rem fg fr hg hr m hedge hfail hgate hrem) fuel).1 s

/-- Witness for C1 on the concrete two-step graph `w1Graph` at the
default `MaxSteps` bound. -/
theorem engine_cycle_guard_witness :
    engineLoop w1Graph (maxSteps w1Graph) (.node "g") (initState [] []) =
      .error .cycleExceeded :=
  engine_cycle_guard w1Graph "g" "rem" w1Gate w1Rem rfl rfl
    [("pass", .done), ("fail", .node "rem")] rfl rfl
    (fun _ => ⟨.vBool false, rfl, rfl⟩) (fun s => ⟨s, rfl⟩)
    (maxSteps w1Graph) (initState [] [])

/-- C2 counterexample: the subject `c2ce_tx` satisfies the claim's
hypotheses (omits `doc_date, currency, supplier_id, net_amount`, has the
remaining mandatory field, context defaults supply `net_amount=1000` and
`supplier_tax=190`, rate table `{"DE": 0.19}`, tolerance 0.01), yet the
run never reaches the terminal state: after remediation the
field-validation gate passes, but the comparison gate fails forever (the
subject has no country, so the computed tax is 0 ≠ 190) and the run
aborts with `CycleExceededError`. -/
theorem c2_cex : run_tax_validation c2ce_tx scenarioB_ctx = .error .cycleExceeded := by
  rfl

/-- C2 (amended): for the Scenario-B run of the repository's demo — the
subject omits the four remediable mandatory fields and carries
`entity_id`, `country="DE"` and `supplier_tax=190`, while
`context.defaults` supplies `doc_date`, `currency`, `supplier_id`,
`net_amount=1000` and `supplier_tax=190`, with rate table
`{"DE": 0.19}` and tolerance 0.01 — the field-validation gate fails on
its first invocation, the remediation step fills the defaults and resumes
the gate, the gate passes on its second invocation, and the run reaches
the terminal state with `passed=true` and the field-validation step id
appearing exactly twice in the trail. -/
theorem scenarioB_run :
    (run_tax_validation scenarioB_tx scenarioB_ctx).map
        (fun r => (r.passed, r.path, dictGet r.results "legal_mandatory_fields",
                   dictGet r.results "8_failed_controls_hitl")) =
      .ok (true, scenarioB_path,
           some (.vDict [("passed", .vBool true), ("missing", .vList [])]),
           some (.vDict [("approved", .vBool true),
                         ("comment", .vStr "Remediated and resuming from legal_mandatory_fields."),
                         ("changes", .vDict
                            [("doc_date", .vStr "2025-10-13"), ("currency", .vStr "EUR"),
                             ("supplier_id", .vStr "SIM-SUP"), ("net_amount", .vFloat 1000)])]))
    ∧ scenarioB_path.count "legal_mandatory_fields" = 2 := by
  exact ⟨by rfl, by rfl⟩

/-- C3 counterexample: after the passing re-run of step `g` was evaluated
by the router (label `"pass"`), `last_failed_node` is still set to `g`
from the earlier failure — the claimed "set iff the last-evaluated
derived pass/fail was false" biconditional fails. -/
theorem c3_cex :
    (pass_fail c3StateB).2 = "pass" ∧ routerPassed c3StateB = true ∧
      (pass_fail c3StateB).1.last_failed_node = some "g" :=
  ⟨rfl, rfl, rfl⟩

/-- C3 (amended): the pass/fail router sets `lastFailedStep` to the
inspected key whenever the derived pass/fail is false and the key is
truthy, and on a passing evaluation it leaves `lastFailedStep` unchanged
— it never clears it, so the field may remain set after a passing
re-run. -/
theorem lastFailedStep_router (s : TaxState) :
    (routerPassed s = false → optTruthy (routerKey s) = true →
      (pass_fail s).1.last_failed_node = routerKey s)
  ∧ (routerPassed s = true → (pass_fail s).1.last_failed_node = s.last_failed_node) := by
  constructor
  · intro h1 h2
    unfold pass_fail
    simp [h1, h2]
  · intro h1
    unfold pass_fail
    simp [h1]

/-- Witness for C3: the router marks the concrete failing state and
preserves `last_failed_node` on the concrete passing state. -/
theorem lastFailedStep_router_witness :
    (pass_fail c3wFail).1.last_failed_node = routerKey c3wFail ∧
      (pass_fail c3wPass).1.last_failed_node = c3wPass.last_failed_node :=
  ⟨(lastFailedStep_router c3wFail).1 rfl rfl,
   (lastFailedStep_router c3wPass).2 rfl⟩

/-- C4 counterexample: an invocation of the remediation step appends
nothing to the trail — the trail is unchanged, so its length does not
equal the number of step invocations once the remediation step has
run. -/
theorem c4_cex :
    (node_failed_controls_and_validations c4State).update.path = c4State.path ∧
      c4State.path.length = 2 :=
  ⟨rfl, rfl⟩

/-- C4 (amended): every ordinary step invocation (through the merge
helper) appends exactly one step id to the trail and never truncates it;
an invocation of the remediation step leaves the trail unchanged (it
records no entry for itself). -/
theorem trail_growth (s : TaxState) (node : String) (payload : PyVal) :
    (ok s node payload).path = s.path ++ [node]
  ∧ (node_failed_controls_and_validations s).update.path = s.path :=
  ⟨rfl, rfl⟩

/-
Remediation-fill lemmas: the effect of the `for k in (...)` loop of the
HITL step on each transaction key.
-/

theorem fill_fst_notMem (defaults : List (String × PyVal)) (L : List String)
    (acc : List (String × PyVal) × List (String × PyVal)) (k : String) (h : k ∉ L) :
    dictGet (L.foldl (fillMissing defaults) acc).1 k = dictGet acc.1 k := by
  induction L generalizing acc with
  | nil => rfl
  | cons a t ih =>
    simp only [List.foldl_cons]
    rw [ih _ (fun hm => h (List.mem_cons_of_mem a hm))]
    have hka : ¬ k = a := fun e => h (e ▸ List.mem_cons_self a t)
    unfold fillMissing
    split
    · rfl
    · exact dictGet_dictSet_ne _ _ _ _ (beq_eq_false_iff_ne.mpr hka)

theorem fill_fst_mem (defaults : List (String × PyVal)) (L1 L2 : List String)
    (tx ch : List (String × PyVal)) (k : String) (h1 : k ∉ L1) (h2 : k ∉ L2) :
    dictGet ((L1 ++ k :: L2).foldl (fillMissing defaults) (tx, ch)).1 k =
      if truthyO (dictGet tx k) then dictGet tx k
      else some (dictGetD defaults k .vNone) := by
  rw [List.foldl_append]
  simp only [List.foldl_cons]
  rw [fill_fst_notMem defaults L2 _ k h2]
  have hpre : dictGet (L1.foldl (fillMissing defaults) (tx, ch)).1 k = dictGet tx k :=
    fill_fst_notMem defaults L1 _ k h1
  generalize hq : L1.foldl (fillMissing defaults) (tx, ch) = acc1 at hpre ⊢
  unfold fillMissing
  by_cases ht : truthyO (dictGet tx k) = true
  · rw [if_pos (by rw [hpre]; exact ht), if_pos ht]
    exact hpre
  · rw [if_neg (by rw [hpre]; exact ht), if_neg ht]
    exact dictGet_dictSet_self _ _ _

theorem fill_fst_key (defaults tx ch : List (String × PyVal)) (k : String)
    (hk : k ∈ remediationKeys) :
    dictGet (remediationKeys.foldl (fillMissing defaults) (tx, ch)).1 k =
      if truthyO (dictGet tx k) then dictGet tx k
      else some (dictGetD defaults k .vNone) := by
  have h : k = "doc_date" ∨ k = "currency" ∨ k = "supplier_id" ∨ k = "net_amount" := by
    simpa [remediationKeys] using hk
  rcases h with h | h | h | h <;> subst h
  · exact fill_fst_mem defaults [] ["currency", "supplier_id", "net_amount"] tx ch
      "doc_date" (by simp) (by simp)
  · exact fill_fst_mem defaults ["doc_date"] ["supplier_id", "net_amount"] tx ch
      "currency" (by simp) (by simp)
  · exact fill_fst_mem defaults ["doc_date", "currency"] ["net_amount"] tx ch
      "supplier_id" (by simp) (by simp)
  · exact fill_fst_mem defaults ["doc_date", "currency", "supplier_id"] [] tx ch
      "net_amount" (by simp) (by simp)

/-- C5 counterexample: with `last_failed_node` holding the empty string
— set, and different from the field-validation gate — the remediation
step still fills the subject (Python's `or` treats the falsy value as
unset) and resumes at the gate rather than at `lastFailedStep`. -/
theorem c5_cex :
    c5State.last_failed_node = some "" ∧
    ("" == "legal_mandatory_fields") = false ∧
    (node_failed_controls_and_validations c5State).goto = "legal_mandatory_fields" ∧
    dictGet (node_failed_controls_and_validations c5State).update.tx "currency" =
      some (.vStr "EUR") ∧
    dictGet c5State.tx "currency" = none :=
  ⟨rfl, rfl, rfl, rfl, rfl⟩

/-- C5 (amended): for every input state, the remediation step fills
missing (falsy) subject fields from its enumerated subset only when the
effective resume target — `lastFailedStep` when set and non-empty, the
field-validation gate otherwise — is the field-validation gate; it leaves
every other subject field and every truthy field unchanged, appends one
entry to `messages`, records under its own id an outcome with
`approved=true`, the comment and the changes made, and returns a
directive resuming execution at the effective target with the updated
state. -/
theorem hitl_contract (s : TaxState) (k : String) :
    ((node_failed_controls_and_validations s).goto = hitlResumeTarget s)
  ∧ ((node_failed_controls_and_validations s).update.messages.length = s.messages.length + 1)
  ∧ (dictGet (node_failed_controls_and_validations s).update.results "8_failed_controls_hitl" =
      some (.vDict
        [("approved", .vBool true),
         ("comment", .vStr ("Remediated and resuming from " ++ hitlResumeTarget s ++ ".")),
         ("changes", .vDict (hitlFill s).2)]))
  ∧ (hitlResumeTarget s ≠ "legal_mandatory_fields" →
      (node_failed_controls_and_validations s).update.tx = s.tx)
  ∧ (k ∉ remediationKeys →
      dictGet (node_failed_controls_and_validations s).update.tx k = dictGet s.tx k)
  ∧ (truthyO (dictGet s.tx k) = true →
      dictGet (node_failed_controls_and_validations s).update.tx k = dictGet s.tx k)
  ∧ (hitlResumeTarget s = "legal_mandatory_fields" → k ∈ remediationKeys →
      truthyO (dictGet s.tx k) = false →
      dictGet (node_failed_controls_and_validations s).update.tx k =
        some (dictGetD (hitlDefaults s) k .vNone)) := by
  refine ⟨rfl, ?_, ?_, ?_, ?_, ?_, ?_⟩
  · show (s.messages ++ [_]).length = s.messages.length + 1
    simp
  · show dictGet (dictSet s.results "8_failed_controls_hitl" _) "8_failed_controls_hitl" = _
    exact dictGet_dictSet_self _ _ _
  · intro h
    show (hitlFill s).1 = s.tx
    unfold hitlFill
    rw [if_neg (by simpa using h)]
  · intro h
    show dictGet (hitlFill s).1 k = dictGet s.tx k
    unfold hitlFill
    split
    · exact fill_fst_notMem _ _ _ _ h
    · rfl
  · intro h
    show dictGet (hitlFill s).1 k = dictGet s.tx k
    unfold hitlFill
    split
    · by_cases hk : k ∈ remediationKeys
      · rw [fill_fst_key _ _ _ _ hk, if_pos h]
      · exact fill_fst_notMem _ _ _ _ hk
    · rfl
  · intro hg hk hf
    show dictGet (hitlFill s).1 k = some (dictGetD (hitlDefaults s) k .vNone)
    unfold hitlFill
    rw [if_pos (by simpa using hg)]
    rw [fill_fst_key _ _ _ _ hk, if_neg (by rw [hf]; exact Bool.false_ne_true)]

/-- Witness for C5: concrete applications of `hitl_contract` — truthy
`currency` kept, falsy `doc_date` filled from the built-in defaults, a
key outside the enumerated subset untouched, and no fill at all when the
last failure was the comparison gate. -/
theorem hitl_contract_witness :
    (node_failed_controls_and_validations c5wState).goto = hitlResumeTarget c5wState ∧
    dictGet (node_failed_controls_and_validations c5wState).update.tx "currency" =
      dictGet c5wState.tx "currency" ∧
    dictGet (node_failed_controls_and_validations c5wState).update.tx "doc_date" =
      some (.vStr "2025-10-13") ∧
    dictGet (node_failed_controls_and_validations c5wState).update.tx "other" =
      dictGet c5wState.tx "other" ∧
    (node_failed_controls_and_validations c4State).update.tx = c4State.tx := by
  refine ⟨(hitl_contract c5wState "currency").1,
          (hitl_contract c5wState "currency").2.2.2.2.2.1 rfl,
          ?_,
          (hitl_contract c5wState "other").2.2.2.2.1 (by simp [remediationKeys]),
          (hitl_contract c4State "other").2.2.2.1 (by simp [hitlResumeTarget, c4State])⟩
  have h := (hitl_contract c5wState "doc_date").2.2.2.2.2.2 rfl
    (by simp [remediationKeys]) rfl
  exact h.trans rfl

/-- C6 counterexample: with the trail ending in the empty-string step id
and a failing recorded outcome, the router returns `"fail"` but does not
set `lastFailedStep` to the last trail element — `if not passed and
last_key` skips the falsy key. -/
theorem c6_cex :
    (pass_fail c6State).2 = "fail" ∧ routerVal c6State = some (.vBool false) ∧
      (pass_fail c6State).1.last_failed_node = none :=
  ⟨rfl, rfl, rfl⟩

/-- C6 (amended): for every state, the pass/fail router selects the entry
of outcomes keyed by the last trail element (or, when the trail is empty,
by the last key inserted into outcomes), derives passed from that entry
by the dual contract, sets `lastFailedStep` to the selected key when not
passed and the key is truthy (non-`None`, non-empty) — otherwise leaving
the state unchanged — and returns `"pass"` when passed and `"fail"`
otherwise. -/
theorem pass_fail_contract (s : TaxState) :
    ((pass_fail s).2 = if routerPassed s then "pass" else "fail")
  ∧ (s.path ≠ [] → routerKey s = s.path.getLast?)
  ∧ (s.path = [] → routerKey s = (s.results.map Prod.fst).getLast?)
  ∧ (∀ k, routerKey s = some k → routerVal s = dictGet s.results k)
  ∧ (∀ k entries v, routerKey s = some k → dictGet s.results k = some (.vDict entries) →
      dictGet entries "passed" = some v → routerPassed s = truthy v)
  ∧ (∀ k p, routerKey s = some k → dictGet s.results k = some p →
      hasPassedField p = false → routerPassed s = truthy p)
  ∧ (routerPassed s = false → optTruthy (routerKey s) = true →
      (pass_fail s).1 = { s with last_failed_node := routerKey s })
  ∧ (routerPassed s = true ∨ optTruthy (routerKey s) = false → (pass_fail s).1 = s) := by
  refine ⟨rfl, ?_, ?_, ?_, ?_, ?_, ?_, ?_⟩
  · intro h
    unfold routerKey
    cases hl : s.path.getLast? with
    | some k => rfl
    | none => exact absurd (List.getLast?_eq_none_iff.mp hl) h
  · intro h
    unfold routerKey
    rw [h]
    show lastKey s.results = _
    unfold lastKey
    rw [List.getLast?_map]
  · intro k hk
    unfold routerVal
    rw [hk]
  · intro k entries v hk hres hp
    unfold routerPassed routerVal
    rw [hk]
    show (match dictGet s.results k with | some v => derivePassed v | none => false) = truthy v
    rw [hres]
    show derivePassed (.vDict entries) = truthy v
    unfold derivePassed
    show (match dictGet entries "passed" with
          | some v => truthy v
          | none => truthy (PyVal.vDict entries)) = truthy v
    rw [hp]
  · intro k p hk hres hp
    unfold routerPassed routerVal
    rw [hk]
    show (match dictGet s.results k with | some v => derivePassed v | none => false) = truthy p
    rw [hres]
    show derivePassed p = truthy p
    unfold derivePassed
    cases p with
    | vDict entries =>
      simp only [hasPassedField] at hp
      show (match dictGet entries "passed" with
            | some v => truthy v
            | none => truthy (PyVal.vDict entries)) = truthy (PyVal.vDict entries)
      cases hg : dictGet entries "passed" with
      | none => rfl
      | some v => rw [hg] at hp; simp at hp
    | vNone => rfl
    | vBool b => rfl
    | vInt n => rfl
    | vFloat q => rfl
    | vStr t => rfl
    | vList elems => rfl
  · intro h1 h2
    unfold pass_fail
    simp [h1, h2]
  · intro h
    unfold pass_fail
    rcases h with h | h
    · simp [h]
    · simp [h]

/-- Witness for C6: `pass_fail_contract` applied to the concrete failing
state of the remediation demo (trail ends in the field-validation gate
with a failing structured payload). -/
theorem pass_fail_contract_witness :
    routerKey c3StateA = c3StateA.path.getLast? ∧
    routerPassed c3StateA = false ∧
    (pass_fail c3StateA).1 = { c3StateA with last_failed_node := routerKey c3StateA } := by
  refine ⟨(pass_fail_contract c3StateA).2.1 (by simp [c3StateA, ok, initState]), ?_,
          (pass_fail_contract c3StateA).2.2.2.2.2.2.1 rfl rfl⟩
  have h := (pass_fail_contract c3StateA).2.2.2.2.1 "g" [("passed", .vBool false)]
    (.vBool false) rfl rfl rfl
  exact h.trans rfl

/-- C7: for every state, step id and payload, the result-merge helper
records the payload under the id in outcomes, derives passed from the
payload's explicit `passed` field when it is a structured value carrying
one and from the payload's truthiness otherwise, stores the derivation in
`lastPassed`, appends the id to the trail, and leaves `lastFailedStep`
unchanged. -/
theorem recordOutcome_contract (s : TaxState) (node : String) (payload : PyVal) :
    dictGet (ok s node payload).results node = some payload
  ∧ (ok s node payload).path = s.path ++ [node]
  ∧ (ok s node payload).last_failed_node = s.last_failed_node
  ∧ (∀ entries v, payload = .vDict entries → dictGet entries "passed" = some v →
      (ok s node payload).last_check_passed = some (truthy v))
  ∧ (hasPassedField payload = false →
      (ok s node payload).last_check_passed = some (truthy payload)) := by
  refine ⟨dictGet_dictSet_self _ _ _, rfl, rfl, ?_, ?_⟩
  · intro entries v hpay hp
    show some (derivePassed payload) = some (truthy v)
    subst hpay
    unfold derivePassed
    show some (match dictGet entries "passed" with
               | some v => truthy v
               | none => truthy (PyVal.vDict entries)) = some (truthy v)
    rw [hp]
  · intro hp
    show some (derivePassed payload) = some (truthy payload)
    unfold derivePassed
    cases payload with
    | vDict entries =>
      simp only [hasPassedField] at hp
      show some (match dictGet entries "passed" with
                 | some v => truthy v
                 | none => truthy (PyVal.vDict entries)) = some (truthy (PyVal.vDict entries))
      cases hg : dictGet entries "passed" with
      | none => rfl
      | some v => rw [hg] at hp; simp at hp
    | vNone => rfl
    | vBool b => rfl
    | vInt n => rfl
    | vFloat q => rfl
    | vStr t => rfl
    | vList elems => rfl

/-- Witness for C7: the merge helper on a structured payload with an
explicit flag and on a bare truthy value. -/
theorem recordOutcome_contract_witness :
    dictGet (ok (initState [] []) "x" (.vDict [("passed", .vBool true)])).results "x" =
      some (.vDict [("passed", .vBool true)]) ∧
    (ok (initState [] []) "x" (.vDict [("passed", .vBool true)])).last_check_passed =
      some true ∧
    (ok (initState [] []) "y" (.vInt 5)).last_check_passed = some true := by
  refine ⟨(recordOutcome_contract (initState [] []) "x" _).1, ?_, ?_⟩
  · have h := (recordOutcome_contract (initState [] []) "x"
      (.vDict [("passed", .vBool true)])).2.2.2.1 [("passed", .vBool true)] (.vBool true) rfl rfl
    exact h.trans rfl
  · have h := (recordOutcome_contract (initState [] []) "y" (.vInt 5)).2.2.2.2 rfl
    exact h.trans rfl

/-- C8: applying the result-merge helper twice with the same id and
payload yields the same outcomes entry for the id and the same
`lastPassed` as applying it once, while each application appends exactly
one entry to the trail — the trail grows by two, with no deduplication. -/
theorem recordOutcome_idempotent (s : TaxState) (node : String) (payload : PyVal) :
    dictGet (ok (ok s node payload) node payload).results node =
      dictGet (ok s node payload).results node
  ∧ (ok (ok s node payload) node payload).last_check_passed =
      (ok s node payload).last_check_passed
  ∧ (ok s node payload).path = s.path ++ [node]
  ∧ (ok (ok s node payload) node payload).path = s.path ++ [node, node] := by
  refine ⟨?_, rfl, rfl, ?_⟩
  · show dictGet (dictSet (dictSet s.results node payload) node payload) node =
      dictGet (dictSet s.results node payload) node
    rw [dictGet_dictSet_self, dictGet_dictSet_self]
  · show (s.path ++ [node]) ++ [node] = s.path ++ [node, node]
    rw [List.append_assoc]
    rfl

/-- C9: for every input state, the place-of-supply step sets `pos_region`
to exactly one of DOMESTIC, EU or NON_EU, and the `route_pos` router on
the resulting state returns a label that has an entry in the
conditional-edge outcome map attached to the place-of-supply step, so the
unmatched-label (routing-error) branch is unreachable at that gate. -/
theorem pos_routing_total (s : TaxState) :
    ((node_place_of_supply s).pos_region = some "DOMESTIC"
      ∨ (node_place_of_supply s).pos_region = some "EU"
      ∨ (node_place_of_supply s).pos_region = some "NON_EU")
  ∧ (alookup posOutcomes (route_pos (node_place_of_supply s))).isSome = true := by
  have hpos : (node_place_of_supply s).pos_region = some (posRegion s.tx) := rfl
  have hroute : route_pos (node_place_of_supply s) = posRegion s.tx := rfl
  rw [hpos, hroute]
  unfold posRegion
  by_cases h1 : (truthyO (dictGet s.tx "ship_to_country")
      && truthyO (dictGet s.tx "supplier_country")
      && pyEqO (dictGet s.tx "ship_to_country") (dictGet s.tx "supplier_country")) = true
  · rw [if_pos h1]
    exact ⟨Or.inl rfl, rfl⟩
  · rw [if_neg h1]
    by_cases h2 : (inEU (dictGet s.tx "ship_to_country")
        && inEU (dictGet s.tx "supplier_country")) = true
    · rw [if_pos h2]
      exact ⟨Or.inr (Or.inl rfl), rfl⟩
    · rw [if_neg h2]
      exact ⟨Or.inr (Or.inr rfl), rfl⟩

/-- C10: for every subject in which a mandatory field is present but
holds a falsy value (or is absent), the field-validation gate reports
that field in its `missing` list and derives `passed = false`. -/
theorem falsy_field_reported (s : TaxState) (k : String)
    (hk : k ∈ requiredFields) (hf : truthyO (dictGet s.tx k) = false) :
    (node_legal_and_mandatory_fields s).last_check_passed = some false
  ∧ ∃ missing : List String,
      dictGet (node_legal_and_mandatory_fields s).results "legal_mandatory_fields" =
        some (.vDict [("passed", .vBool false), ("missing", .vList (missing.map .vStr))])
      ∧ k ∈ missing := by
  have hkm : k ∈ missingFields s.tx := by
    unfold missingFields
    exact List.mem_filter.mpr ⟨hk, by rw [hf]; rfl⟩
  have hlen : ((missingFields s.tx).length == 0) = false := by
    have hne : missingFields s.tx ≠ [] := List.ne_nil_of_mem hkm
    simpa [List.length_eq_zero] using hne
  constructor
  · show some (derivePassed (legalPayload s.tx)) = some false
    rw [show derivePassed (legalPayload s.tx) = ((missingFields s.tx).length == 0) from rfl]
    rw [hlen]
  · refine ⟨missingFields s.tx, ?_, hkm⟩
    show dictGet (dictSet s.results "legal_mandatory_fields" (legalPayload s.tx))
        "legal_mandatory_fields" = _
    rw [dictGet_dictSet_self]
    unfold legalPayload
    rw [hlen]

/-- Witness for C10: every mandatory field of `c10State` is present, but
`net_amount = 0` is falsy — the gate lists it as missing and fails. -/
theorem falsy_field_reported_witness :
    (node_legal_and_mandatory_fields c10State).last_check_passed = some false ∧
    ∃ missing : List String,
      dictGet (node_legal_and_mandatory_fields c10State).results "legal_mandatory_fields" =
        some (.vDict [("passed", .vBool false), ("missing", .vList (missing.map .vStr))])
      ∧ "net_amount" ∈ missing :=
  falsy_field_reported c10State "net_amount" (by simp [requiredFields]) rfl

end TaxNodes
